import Mathlib

/-!
Shallow embedding of `src/backend/main.py` (the "Mcp-Based-Agentic-Gpt" chat
backend): the JSON-ish values the tool adapters return, the Python string
operations used by the dispatch loop, the seven tool adapters, the context
manager, and the `/chat/message` dispatch loop itself.

External effects (HTTP calls to the LLM and to the search providers, and the
Supabase database client) are modelled by oracle parameters: each outbound
HTTP call is a value of `HttpOutcome`, each LLM call is an
`Except String LLMOut` (`.error` models a raised exception anywhere in
`call_llm` or in the response indexing), and each database operation carries
a `Bool` success flag (false models a raised exception inside the
`try`/`except` around that operation).
-/

namespace MCPGpt

/-- Python values as they appear in this program: JSON data parsed from HTTP
responses and the dicts the adapters build.  `null` is Python `None`. -/
inductive JVal where
  | null
  | bool (b : Bool)
  | nat (n : Nat)
  | str (s : String)
  | list (xs : List JVal)
  | obj (fields : List (String × JVal))

/-- A Python dict with string keys (the shape every adapter returns). -/
abbrev Obj := List (String × JVal)

/-- `d.get(k)` / `d[k]` lookup on a dict: first binding of the key. -/
def oGet (o : Obj) (k : String) : Option JVal :=
  (o.find? (fun p => p.1 == k)).map (fun p => p.2)

/-- Python truthiness of a value (`if x:`). -/
def JVal.truthy : JVal → Bool
  | .null => false
  | .bool b => b
  | .nat n => n != 0
  | .str s => s != ""
  | .list xs => !xs.isEmpty
  | .obj o => !o.isEmpty

/-- Truthiness of `d.get(k)`: an absent key is `None`, which is falsy. -/
def truthyOpt : Option JVal → Bool
  | none => false
  | some v => v.truthy

/-- Python `str(x)` / f-string rendering of the values this program ever
formats (strings, `None`, numbers).  Lists and dicts are never formatted on
any path the dispatch loop reaches with data built by these adapters; their
Python `repr` is not modelled. -/
def pyStrVal : JVal → String
  | .null => "None"
  | .bool b => if b then "True" else "False"
  | .nat n => toString n
  | .str s => s
  | .list _ => "<unmodelled list repr>"
  | .obj _ => "<unmodelled dict repr>"

/-- `d.get(k, default)` rendered as a string (as the f-strings in the two
fallback formatters do). -/
def oGetStr (o : Obj) (k d : String) : String :=
  match oGet o k with
  | some v => pyStrVal v
  | none => d

/-- `d.get(k, default)` on a value that the code treats as a dict.  In the
data built by this program the value is always a dict; a non-dict would make
Python raise, which no modelled path reaches. -/
def jGetStr (v : JVal) (k d : String) : String :=
  match v with
  | .obj o => oGetStr o k d
  | _ => d

/-- `d.get(k)` on a value treated as a dict, `None` when absent. -/
def jGet (v : JVal) (k : String) : JVal :=
  match v with
  | .obj o => (oGet o k).getD .null
  | _ => .null

/-- `d.get(k, [])` where the code then iterates/slices the result.  In the
data this program builds the value is always a list; a present non-list
value would make Python raise, which no modelled path reaches. -/
def oGetList (o : Obj) (k : String) : List JVal :=
  match oGet o k with
  | some (.list xs) => xs
  | _ => []

/-! ### Python string operations used at lines 598, 638 and 641 -/

/-- The whitespace set of Python `str.strip()`. -/
def isPySpace (c : Char) : Bool :=
  c == ' ' || c == '\t' || c == '\n' || c == '\x0d' || c == '\x0b' || c == '\x0c'

/-- Python `str.strip()`: drop leading and trailing whitespace. -/
def pyStrip (s : String) : String :=
  String.mk (((s.toList.dropWhile isPySpace).reverse.dropWhile isPySpace).reverse)

/-- Substring test, Python `needle in hay` on strings. -/
def listInfix (pat : List Char) : List Char → Bool
  | [] => pat.isEmpty
  | c :: cs => pat.isPrefixOf (c :: cs) || listInfix pat cs

/-- Python `pat in s` (substring containment). -/
def containsSub (s pat : String) : Bool :=
  listInfix pat.toList s.toList

def openTok : List Char := "<think>".toList
def closeTok : List Char := "</think>".toList

/-- Scan for the first occurrence of `</think>` and return everything after
it (the lazy `.*?</think>` step of the regex). -/
def dropAfterClose : List Char → Option (List Char)
  | [] => none
  | c :: cs =>
      if closeTok.isPrefixOf (c :: cs) then some ((c :: cs).drop 8)
      else dropAfterClose cs

theorem dropAfterClose_length_le :
    ∀ l r : List Char, dropAfterClose l = some r → r.length ≤ l.length := by
  intro l
  induction l with
  | nil => intro r h; simp [dropAfterClose] at h
  | cons c cs ih =>
      intro r h
      by_cases hp : closeTok.isPrefixOf (c :: cs)
      · simp [dropAfterClose, hp] at h
        subst h
        simp [List.length_drop]
        omega
      · simp [dropAfterClose, hp] at h
        exact Nat.le_trans (ih r h) (by simp)

/-- One left-to-right pass of `re.sub(r'<think>.*?</think>', '', s, flags=DOTALL)`:
at each position, if the (lazy, hence shortest) pattern matches, delete the
match and continue scanning after it; otherwise keep the character.  A span
spliced together by a deletion is NOT rescanned, exactly as `re.sub` behaves.
The `fuel` argument only makes the recursion structural (each step consumes
one fuel and at least one input character, so with `fuel = l.length` the
zero-fuel case is reached only on `[]`); `dropAfterClose_length_le` is the
shrinking fact behind that. -/
def stripThinkAux : Nat → List Char → List Char
  | _, [] => []
  | 0, l => l
  | fuel + 1, c :: cs =>
      if openTok.isPrefixOf (c :: cs) then
        match dropAfterClose ((c :: cs).drop 7) with
        | some rest => stripThinkAux fuel rest
        | none => c :: stripThinkAux fuel cs
      else c :: stripThinkAux fuel cs

/-- `re.sub(r'<think>.*?</think>', '', s, flags=re.DOTALL)` (line 638). -/
def stripThink (s : String) : String :=
  String.mk (stripThinkAux s.toList.length s.toList)

/-! ### External call outcomes and configuration -/

/-- Outcome of one outbound HTTP call made by a tool adapter: either some
exception is raised during the call (connect error, timeout, unparseable
JSON body, ...) with `str(e) = msg`, or a response arrives with the given
status code, parsed JSON body (a dict, as all the called APIs return) and
raw text.  Note the adapters never look at the status code. -/
inductive HttpOutcome where
  | exc (msg : String)
  | resp (status : Nat) (body : Obj) (text : String)

/-- The environment-variable configuration read at startup.
`openrouter_api_key` and `openrouter_model` only parameterize the external
LLM call, which is an oracle here. -/
structure Config where
  openrouter_api_key : Option String
  openrouter_model : String
  supabaseConfigured : Bool
  gnews_api_key : Option String
  serper_api_key : Option String

/-! ### Database rows (the two Supabase tables) and the context cache -/

structure ChatRow where
  session_id : String
  role : String
  content : String
  created_at : Nat
deriving DecidableEq

structure MemRow where
  session_id : String
  memory_type : String
  content : String
  created_at : Nat
deriving DecidableEq

/-- The external relational store: tables `chat_history` and `memories`. -/
structure DB where
  chat_history : List ChatRow
  memories : List MemRow
deriving DecidableEq

/-- A message as held in the in-process context cache (role + content). -/
structure Msg where
  role : String
  content : String
deriving DecidableEq

/-- `order("created_at", desc=True)`: most-recent-first. -/
def memRecent (a b : MemRow) : Prop := b.created_at ≤ a.created_at

instance : DecidableRel memRecent := fun a b => Nat.decLe _ _

instance : IsTotal MemRow memRecent := ⟨fun a b => le_total b.created_at a.created_at⟩

instance : IsTrans MemRow memRecent := ⟨fun _ _ _ hab hbc => le_trans hbc hab⟩

/-- `order("created_at", desc=False)`: creation time ascending. -/
def chatOlder (a b : ChatRow) : Prop := a.created_at ≤ b.created_at

instance : DecidableRel chatOlder := fun a b => Nat.decLe _ _

instance : IsTotal ChatRow chatOlder := ⟨fun a b => le_total a.created_at b.created_at⟩

instance : IsTrans ChatRow chatOlder := ⟨fun _ _ _ hab hbc => le_trans hab hbc⟩

/-- `ContextManager.sessions`: the in-process cache, a dict from session id
to its message list (`none` = key absent). -/
structure CMState where
  sessions : String → Option (List Msg)

/-- The cached message list for a session, `[]` when the key is absent. -/
def cachedOf (st : CMState) (sid : String) : List Msg :=
  (st.sessions sid).getD []

/-! ### The seven tool adapters (lines 123-343) -/

/-- `web_search` (lines 123-156).  `serper` is `SERPER_API_KEY`; `http` the
outcome of the POST to google.serper.dev/search. -/
def web_search (serper : Option String) (http : HttpOutcome) (query : String) : Obj :=
  match serper with
  | none => [("error", JVal.str "Serper API key not configured")]
  | some _ =>
    match http with
    | .exc m => [("success", JVal.bool false), ("error", JVal.str m)]
    | .resp _ data _ =>
        let results := ((oGetList data "organic").take 5).map (fun item =>
          JVal.obj [("title", jGet item "title"),
                    ("snippet", jGet item "snippet"),
                    ("link", jGet item "link")])
        [("success", JVal.bool true), ("query", JVal.str query),
         ("results", JVal.list results), ("total", JVal.nat results.length)]

/-- `article.get("source", {}).get("name")` in `news_search`. -/
def sourceName (article : JVal) : JVal :=
  match article with
  | .obj o =>
      match oGet o "source" with
      | some (.obj src) => (oGet src "name").getD .null
      | some _ => JVal.null   -- a non-dict source would raise in Python; unreachable for this API
      | none => JVal.null     -- default {} then .get("name") gives None
  | _ => JVal.null

/-- `news_search` (lines 159-196).  `gnews` is `GNEWS_API_KEY`.  The
`country` parameter only feeds the outbound request. -/
def news_search (gnews : Option String) (http : HttpOutcome)
    (query : String) (country : String) : Obj :=
  match gnews with
  | none => [("error", JVal.str "GNews API key not configured")]
  | some _ =>
    match http with
    | .exc m => [("success", JVal.bool false), ("error", JVal.str m)]
    | .resp _ data _ =>
        let articles := (oGetList data "articles").map (fun a =>
          JVal.obj [("title", jGet a "title"),
                    ("description", jGet a "description"),
                    ("url", jGet a "url"),
                    ("publishedAt", jGet a "publishedAt"),
                    ("source", sourceName a)])
        [("success", JVal.bool true), ("query", JVal.str query),
         ("articles", JVal.list articles), ("total", JVal.nat articles.length)]

/-- `image_search` (lines 199-232). -/
def image_search (serper : Option String) (http : HttpOutcome) (query : String) : Obj :=
  match serper with
  | none => [("error", JVal.str "Serper API key not configured")]
  | some _ =>
    match http with
    | .exc m => [("success", JVal.bool false), ("error", JVal.str m)]
    | .resp _ data _ =>
        let images := ((oGetList data "images").take 10).map (fun img =>
          JVal.obj [("title", jGet img "title"),
                    ("imageUrl", jGet img "imageUrl"),
                    ("link", jGet img "link")])
        [("success", JVal.bool true), ("query", JVal.str query),
         ("images", JVal.list images), ("total", JVal.nat images.length)]

/-- `youtube_search` (lines 235-269). -/
def youtube_search (serper : Option String) (http : HttpOutcome) (query : String) : Obj :=
  match serper with
  | none => [("error", JVal.str "Serper API key not configured")]
  | some _ =>
    match http with
    | .exc m => [("success", JVal.bool false), ("error", JVal.str m)]
    | .resp _ data _ =>
        let videos := ((oGetList data "videos").take 5).map (fun v =>
          JVal.obj [("title", jGet v "title"),
                    ("link", jGet v "link"),
                    ("channel", jGet v "channel"),
                    ("duration", jGet v "duration")])
        [("success", JVal.bool true), ("query", JVal.str query),
         ("videos", JVal.list videos), ("total", JVal.nat videos.length)]

/-- `fetch_webpage` (lines 284-300): uses `response.text[:3000]` and
`response.status_code`; the parsed body is irrelevant. -/
def fetch_webpage (http : HttpOutcome) (url : String) : Obj :=
  match http with
  | .exc m => [("success", JVal.bool false), ("error", JVal.str m)]
  | .resp status _ text =>
      [("success", JVal.bool true), ("url", JVal.str url),
       ("content", JVal.str (text.take 3000)), ("status", JVal.nat status)]

/-- `save_memory` (lines 303-321).  `configured` is whether the Supabase
client exists; `dbOk` whether the insert succeeds (`false` = the insert
raises with message `excMsg`, so no row is added); `now` is the
`datetime.utcnow()` timestamp. -/
def save_memory (configured : Bool) (db : DB) (dbOk : Bool) (excMsg : String)
    (now : Nat) (session_id memory_type content : String) : Obj × DB :=
  if !configured then
    ([("error", JVal.str "Database not configured")], db)
  else if dbOk then
    ([("success", JVal.bool true),
      ("message", JVal.str ("Memory saved: " ++ memory_type))],
     { db with memories := db.memories ++ [⟨session_id, memory_type, content, now⟩] })
  else
    ([("success", JVal.bool false), ("error", JVal.str excMsg)], db)

/-- Python `if memory_type:` — the filter is applied only for a truthy
(non-`None`, non-empty) tag. -/
def memFilter (mt : Option String) (r : MemRow) : Bool :=
  match mt with
  | none => true
  | some t => if t == "" then true else r.memory_type == t

/-- The row set `recall_memory` reads: rows of the session (filtered by a
truthy type tag), ordered by `created_at` descending, limited to 10. -/
def recallRows (db : DB) (sid : String) (mt : Option String) : List MemRow :=
  (((db.memories.filter (fun r => r.session_id == sid && memFilter mt r)).insertionSort
      memRecent).take 10)

/-- A `memories` row as the Supabase client returns it (`select("*")`). -/
def memRowJ (r : MemRow) : JVal :=
  JVal.obj [("session_id", JVal.str r.session_id),
            ("memory_type", JVal.str r.memory_type),
            ("content", JVal.str r.content),
            ("created_at", JVal.nat r.created_at)]

/-- `recall_memory` (lines 324-343). -/
def recall_memory (configured : Bool) (db : DB) (readOk : Bool) (excMsg : String)
    (sid : String) (mt : Option String) : Obj :=
  if !configured then
    [("error", JVal.str "Database not configured")]
  else if readOk then
    let rows := recallRows db sid mt
    [("success", JVal.bool true),
     ("memories", JVal.list (rows.map memRowJ)),
     ("total", JVal.nat rows.length)]
  else
    [("success", JVal.bool false), ("error", JVal.str excMsg)]

/-- `code_execution` (lines 272-281) exists in the source but is neither
registered with the MCP server nor in `TOOL_IMPLEMENTATIONS`; it always
reports a simulated success. -/
def code_execution (code language : String) : Obj :=
  [("success", JVal.bool true), ("language", JVal.str language),
   ("message", JVal.str "⚠️ Code execution is simulated. In production, this would run in a sandboxed environment."),
   ("code", JVal.str code),
   ("note", JVal.str "Use Piston API or Judge0 for real code execution")]

/-! ### Context manager (lines 64-117) and history clearing (lines 707-716) -/

/-- Python `lst[-n:]`: the last `n` elements (the whole list when shorter). -/
def pyLastN (n : Nat) (l : List α) : List α :=
  l.drop (l.length - n)

/-- The truncation in `add_message`: `if len(...) > 50: ... = ...[-50:]`. -/
def truncate50 (l : List Msg) : List Msg :=
  if l.length > 50 then pyLastN 50 l else l

/-- The storage read in `get_context`: rows of the session ordered by
`created_at` ascending, limited to 50 (lines 78-83). -/
def selectChat (db : DB) (sid : String) : List ChatRow :=
  (((db.chat_history.filter (fun r => r.session_id == sid)).insertionSort
      chatOlder).take 50)

/-- `ContextManager.get_context` (lines 69-94).  Returns the context list and
the (possibly newly caching) state.  `readOk = false` models the storage
read raising (logged, swallowed, falls through to `return []` without
caching). -/
def get_context (cfg : Config) (st : CMState) (db : DB) (readOk : Bool)
    (sid : String) : List Msg × CMState :=
  match st.sessions sid with
  | some msgs => (msgs, st)
  | none =>
      if cfg.supabaseConfigured then
        if readOk then
          let history := (selectChat db sid).map (fun r => ⟨r.role, r.content⟩)
          (history, ⟨fun s => if s = sid then some history else st.sessions s⟩)
        else ([], st)
      else ([], st)

/-- `ContextManager.add_message` (lines 96-117).  Appends to the cache,
truncates the cache to the last 50, and best-effort inserts the row
(`writeOk = false` models the insert raising: logged, swallowed). -/
def add_message (cfg : Config) (st : CMState) (db : DB) (writeOk : Bool)
    (now : Nat) (sid role content : String) : CMState × DB :=
  let cur := cachedOf st sid
  let l := truncate50 (cur ++ [⟨role, content⟩])
  (⟨fun s => if s = sid then some l else st.sessions s⟩,
   if cfg.supabaseConfigured && writeOk then
     { db with chat_history := db.chat_history ++ [⟨sid, role, content, now⟩] }
   else db)

/-- `DELETE /chat/history/{session_id}` (lines 707-716): drop the cache
entry and delete the session rows from storage (when configured). -/
def clear_history (cfg : Config) (st : CMState) (db : DB) (sid : String) :
    CMState × DB :=
  (⟨fun s => if s = sid then none else st.sessions s⟩,
   if cfg.supabaseConfigured then
     { db with chat_history := db.chat_history.filter (fun r => !(r.session_id == sid)) }
   else db)

/-! ### Tool registry (lines 34-61 and 347-448) -/

structure Tool where
  name : String
  description : String
  parameters : JVal
  category : String
  enabled : Bool := true

/-- The seven tools registered with the MCP server at startup
(lines 347-437), in registration order. -/
def mcp_tools : List Tool := [
  { name := "web_search",
    description := "Search the web for current information, tutorials, comparisons, or any general knowledge",
    category := "information",
    parameters := JVal.obj [("type", JVal.str "object"),
      ("properties", JVal.obj [("query", JVal.obj [("type", JVal.str "string"), ("description", JVal.str "Search query")])]),
      ("required", JVal.list [JVal.str "query"])] },
  { name := "news_search",
    description := "Get latest news articles about a specific topic or event",
    category := "information",
    parameters := JVal.obj [("type", JVal.str "object"),
      ("properties", JVal.obj [
        ("query", JVal.obj [("type", JVal.str "string"), ("description", JVal.str "News search query")]),
        ("country", JVal.obj [("type", JVal.str "string"), ("description", JVal.str "Country code (us, in, uk, etc.)"), ("default", JVal.str "us")])]),
      ("required", JVal.list [JVal.str "query"])] },
  { name := "image_search",
    description := "Search for images on a specific topic",
    category := "information",
    parameters := JVal.obj [("type", JVal.str "object"),
      ("properties", JVal.obj [("query", JVal.obj [("type", JVal.str "string"), ("description", JVal.str "Image search query")])]),
      ("required", JVal.list [JVal.str "query"])] },
  { name := "youtube_search",
    description := "Search for YouTube videos on a specific topic",
    category := "information",
    parameters := JVal.obj [("type", JVal.str "object"),
      ("properties", JVal.obj [("query", JVal.obj [("type", JVal.str "string"), ("description", JVal.str "Video search query")])]),
      ("required", JVal.list [JVal.str "query"])] },
  { name := "fetch_webpage",
    description := "Fetch and extract content from a specific URL",
    category := "information",
    parameters := JVal.obj [("type", JVal.str "object"),
      ("properties", JVal.obj [("url", JVal.obj [("type", JVal.str "string"), ("description", JVal.str "URL to fetch")])]),
      ("required", JVal.list [JVal.str "url"])] },
  { name := "save_memory",
    description := "Save important information to long-term memory for future recall",
    category := "memory",
    parameters := JVal.obj [("type", JVal.str "object"),
      ("properties", JVal.obj [
        ("memory_type", JVal.obj [("type", JVal.str "string"), ("description", JVal.str "Type of memory (preference, fact, context)")]),
        ("content", JVal.obj [("type", JVal.str "string"), ("description", JVal.str "Information to remember")])]),
      ("required", JVal.list [JVal.str "memory_type", JVal.str "content"])] },
  { name := "recall_memory",
    description := "Recall previously saved information from long-term memory",
    category := "memory",
    parameters := JVal.obj [("type", JVal.str "object"),
      ("properties", JVal.obj [
        ("memory_type", JVal.obj [("type", JVal.str "string"), ("description", JVal.str "Type of memory to recall (optional)")])])] }]

/-- The keys of `TOOL_IMPLEMENTATIONS` (lines 440-448): the names the
dispatch loop will actually execute. -/
def TOOL_IMPL_NAMES : List String :=
  ["web_search", "news_search", "image_search", "youtube_search",
   "fetch_webpage", "save_memory", "recall_memory"]

/-! ### The `/chat/message` dispatch loop (lines 497-678) -/

/-- One tool call in the model response.  `args` is the result of
`json.loads(tool_call["function"]["arguments"])`; the argument values this
program ever passes on are strings. -/
structure ToolCall where
  id : String
  name : String
  args : List (String × String)
deriving DecidableEq

/-- A parsed model response: `message.get("content", "")` (with Python
`None` collapsed to `""`, which every use of the field treats identically)
and `message.get("tool_calls")` as a possibly empty list. -/
structure LLMOut where
  content : String
  tool_calls : List ToolCall
deriving DecidableEq

/-- The oracles for one request: the outcomes of the two `call_llm`
invocations (`.error` = an exception raised in the call or while indexing
its response, which the endpoint handler turns into HTTP 500), the outcome
of the single tool HTTP call, and the success flags of the four database
operations of the turn. -/
structure Oracles where
  llm1 : Except String LLMOut
  llm2 : Except String LLMOut
  toolHttp : HttpOutcome
  ctxReadOk : Bool
  userWriteOk : Bool
  asstWriteOk : Bool
  memOpOk : Bool
  memExcMsg : String

structure ChatRequest where
  message : String
  session_id : Option String
deriving DecidableEq

structure ChatResponse where
  response : String
  session_id : String
  tool_used : Option String
  tool_result : Option Obj

/-- The observable outcome of one `POST /chat/message`: the HTTP-level
result (`.error` = HTTP 500 with the exception text, `.ok` = HTTP 200 with
the response body), the post-request cache and storage states, plus two
ghost observations used by the theorems: the message list handed to the
first model call, and the list of tool implementations actually executed
(with their bound arguments). -/
structure ChatOut where
  result : Except String ChatResponse
  st : CMState
  db : DB
  messages1 : List Msg
  executed : List (String × List (String × String))

/-- `request.session_id or str(uuid.uuid4())` — Python `or`, so an empty
string also triggers generation; `freshId` stands for the fresh UUID. -/
def sessionIdOf (req : ChatRequest) (freshId : String) : String :=
  match req.session_id with
  | some s => if s = "" then freshId else s
  | none => freshId

/-- The system prompt (lines 509-543). -/
def systemPrompt : String :=
  "You are an advanced AI assistant with access to real-time tools and long-term memory.\n\n**CONTEXT AWARENESS:**\n- Remember and reference previous conversations\n- Use conversation history to maintain context\n- Reference recent messages when user says \"it\", \"that\", \"the previous\"\n- Build upon previous topics naturally\n\n**TOOL USAGE - CRITICAL:**\n- After using ANY tool, you MUST provide a helpful, natural response\n- web_search: Summarize the search results in 2-3 sentences\n- news_search: Highlight the main news stories found\n- image_search: Tell user about the images found\n- youtube_search: Describe the videos found with titles\n- fetch_webpage: Summarize the webpage content\n- save_memory: Confirm what was saved\n- recall_memory: Share what was remembered\n\n**RESPONSE FORMAT:**\n- Always respond in natural, conversational language\n- Never return raw tool names or JSON\n- Summarize tool results for the user\n- Be concise but informative\n\n**CRITICAL RULES:**\n- NEVER show raw tool calls like [tool_name: \"query\"]\n- NEVER return empty responses\n- ALWAYS generate a helpful response after tool use\n- Be honest about limitations\n- Reference previous context when relevant\n\nRemember: After using a tool, you MUST explain the results to the user in plain language."

def systemMsg : Msg := ⟨"system", systemPrompt⟩

/-- Lines 508-551: `[system] + context[-20:] + [user]`. -/
def buildMessages1 (context : List Msg) (userText : String) : List Msg :=
  systemMsg :: (pyLastN 20 context ++ [⟨"user", userText⟩])

/-- Lines 576-577: `tool_args["session_id"] = session_id` for the two
memory tools. -/
def injectSession (name : String) (args : List (String × String))
    (sid : String) : List (String × String) :=
  if name = "save_memory" ∨ name = "recall_memory" then
    (args.filter (fun p => !(p.1 == "session_id"))) ++ [("session_id", sid)]
  else args

/-- Keyword-argument lookup for `func(**tool_args)`. -/
def getArg (args : List (String × String)) (k : String) : Option String :=
  ((args.find? (fun p => p.1 == k)).map (fun p => p.2))

/-- `func(**tool_args)` raises `TypeError` on an unexpected keyword, so the
call only proceeds when every supplied key is a declared parameter. -/
def argsAllowed (args : List (String × String)) (allowed : List String) : Bool :=
  args.all (fun p => allowed.contains p.1)

/-- `await func(**tool_args)` for a name known to be in
`TOOL_IMPLEMENTATIONS`: bind the keyword arguments (a mismatch models
Python raising `TypeError`, which the endpoint handler turns into a 500
before any adapter body runs) and run the adapter.  Returns the structured
result and the possibly updated storage (only `save_memory` writes). -/
def runTool (cfg : Config) (http : HttpOutcome) (memOpOk : Bool) (memExcMsg : String)
    (db : DB) (now : Nat)
    (name : String) (args : List (String × String)) : Except String (Obj × DB) :=
  if name = "web_search" then
    match getArg args "query", argsAllowed args ["query"] with
    | some q, true => .ok (web_search cfg.serper_api_key http q, db)
    | _, _ => .error "TypeError: invalid arguments for web_search()"
  else if name = "news_search" then
    match getArg args "query", argsAllowed args ["query", "country"] with
    | some q, true =>
        .ok (news_search cfg.gnews_api_key http q ((getArg args "country").getD "us"), db)
    | _, _ => .error "TypeError: invalid arguments for news_search()"
  else if name = "image_search" then
    match getArg args "query", argsAllowed args ["query"] with
    | some q, true => .ok (image_search cfg.serper_api_key http q, db)
    | _, _ => .error "TypeError: invalid arguments for image_search()"
  else if name = "youtube_search" then
    match getArg args "query", argsAllowed args ["query"] with
    | some q, true => .ok (youtube_search cfg.serper_api_key http q, db)
    | _, _ => .error "TypeError: invalid arguments for youtube_search()"
  else if name = "fetch_webpage" then
    match getArg args "url", argsAllowed args ["url"] with
    | some u, true => .ok (fetch_webpage http u, db)
    | _, _ => .error "TypeError: invalid arguments for fetch_webpage()"
  else if name = "save_memory" then
    match getArg args "session_id", getArg args "memory_type", getArg args "content",
          argsAllowed args ["session_id", "memory_type", "content"] with
    | some sid, some mt, some ct, true =>
        .ok (save_memory cfg.supabaseConfigured db memOpOk memExcMsg now sid mt ct)
    | _, _, _, _ => .error "TypeError: invalid arguments for save_memory()"
  else if name = "recall_memory" then
    match getArg args "session_id", argsAllowed args ["session_id", "memory_type"] with
    | some sid, true =>
        .ok (recall_memory cfg.supabaseConfigured db memOpOk memExcMsg sid
              (getArg args "memory_type"), db)
    | _, _ => .error "TypeError: invalid arguments for recall_memory()"
  else .error "unreachable: name was checked against TOOL_IMPLEMENTATIONS"

/-- The template-leak heuristic of line 598:
`not final_content or '[' in final_content and 'TOOL:' in final_content or '_search' in final_content`
(Python precedence: `(not fc) or (('[' in fc) and ('TOOL:' in fc)) or ('_search' in fc)`). -/
def cond598 (fc : String) : Bool :=
  (fc == "") || (containsSub fc "[" && containsSub fc "TOOL:") || containsSub fc "_search"

/-- The per-tool canned formatter of lines 600-635. -/
def fallback598 (tool_name : String) (tr : Obj) : String :=
  if truthyOpt (oGet tr "success") then
    if tool_name = "youtube_search" then
      let videos := oGetList tr "videos"
      if !videos.isEmpty then
        "Here are some YouTube videos I found:\n\n" ++
          String.join ((videos.take 3).map (fun v =>
            "• " ++ jGetStr v "title" "Untitled" ++ " by " ++ jGetStr v "channel" "Unknown" ++ "\n"))
      else "I couldn't find any YouTube videos matching your search."
    else if tool_name = "news_search" then
      let articles := oGetList tr "articles"
      if !articles.isEmpty then
        "I found " ++ toString articles.length ++ " recent news articles:\n\n" ++
          String.join ((articles.take 3).map (fun a =>
            "• " ++ jGetStr a "title" "No title" ++ "\n  Published: " ++
              jGetStr a "publishedAt" "Unknown" ++ "\n  Source: " ++
              jGetStr a "source" "Unknown" ++ "\n\n"))
      else "No recent news articles found for your query."
    else if tool_name = "image_search" then
      let images := oGetList tr "images"
      "I found " ++ toString images.length ++ " images matching your search. They should appear below."
    else if tool_name = "web_search" then
      let results := oGetList tr "results"
      if !results.isEmpty then
        "Here's what I found:\n\n" ++
          String.join ((results.take 3).map (fun r =>
            "• " ++ jGetStr r "title" "No title" ++ "\n  " ++
              jGetStr r "snippet" "No description" ++ "\n\n"))
      else "No search results found."
    else "I've completed your request successfully."
  else
    "I encountered an error: " ++ oGetStr tr "error" "Unknown error"

/-- Lines 598-635 as one step: the content kept after the second model call,
replaced by the canned summary when the leak heuristic fires. -/
def content_after_tool (tool_name : String) (tr : Obj) (fc : String) : String :=
  if cond598 fc then fallback598 tool_name tr else fc

/-- The second leak heuristic, line 641:
`not final_content or '[' in final_content and '_search:' in final_content`. -/
def cond641 (fc : String) : Bool :=
  (fc == "") || (containsSub fc "[" && containsSub fc "_search:")

/-- The second canned formatter, lines 642-664. -/
def fallback641 (tool_used : Option String) (trd : Option Obj) : String :=
  match trd with
  | some o =>
    if truthyOpt (oGet o "success") then
      if tool_used = some "youtube_search" then
        let videos := oGetList o "videos"
        if !videos.isEmpty then
          "I found " ++ toString videos.length ++ " YouTube videos:\n\n" ++
            String.join ((videos.take 3).map (fun v =>
              "• " ++ jGetStr v "title" "Untitled" ++ "\n"))
        else "I couldn't find any videos matching your search."
      else if tool_used = some "image_search" then
        "I found " ++ toString (oGetList o "images").length ++ " images for your search."
      else if tool_used = some "news_search" then
        "I found " ++ toString (oGetList o "articles").length ++ " recent news articles."
      else if tool_used = some "web_search" then
        "I found " ++ toString (oGetList o "results").length ++ " search results."
      else "I completed the search successfully."
    else "I encountered an issue processing your request."
  | none => "I encountered an issue processing your request."

/-- Lines 638-674: trace-strip and whitespace-strip the final text, apply
the second fallback, persist the assistant message, and build the response
(result, cache state, storage state). -/
def finish (cfg : Config) (asstWriteOk : Bool) (now : Nat) (session_id : String)
    (st : CMState) (db : DB)
    (tool_used : Option String) (trd : Option Obj) (fc0 : String) :
    Except String ChatResponse × CMState × DB :=
  let fc1 := pyStrip (stripThink fc0)
  let fc2 := if cond641 fc1 then fallback641 tool_used trd else fc1
  let p := add_message cfg st db asstWriteOk (now + 1) session_id "assistant" fc2
  (.ok ⟨fc2, session_id, tool_used, trd⟩, p.1, p.2)

/-- `POST /chat/message` (lines 497-678).  `now` is the timestamp of the
user row (the assistant row uses `now + 1`); `freshId` the UUID that would
be generated for a missing/empty session id. -/
def chat_message (cfg : Config) (orc : Oracles) (now : Nat) (freshId : String)
    (st : CMState) (db : DB) (req : ChatRequest) : ChatOut :=
  let session_id := sessionIdOf req freshId
  let ctxPair := get_context cfg st db orc.ctxReadOk session_id
  let messages1 := buildMessages1 ctxPair.1 req.message
  let p := add_message cfg ctxPair.2 db orc.userWriteOk now session_id "user" req.message
  let core : (Except String ChatResponse × CMState × DB)
      × List (String × List (String × String)) :=
    match orc.llm1 with
    | .error e => ((.error e, p.1, p.2), [])
    | .ok am =>
      match am.tool_calls with
      | [] =>
          (finish cfg orc.asstWriteOk now session_id p.1 p.2 none none am.content, [])
      | tc :: _ =>
          let args := injectSession tc.name tc.args session_id
          if tc.name ∈ TOOL_IMPL_NAMES then
            match runTool cfg orc.toolHttp orc.memOpOk orc.memExcMsg p.2 now tc.name args with
            | .error e => ((.error e, p.1, p.2), [])
            | .ok trdb =>
                match orc.llm2 with
                | .error e => ((.error e, p.1, trdb.2), [(tc.name, args)])
                | .ok fr =>
                    (finish cfg orc.asstWriteOk now session_id p.1 trdb.2
                      (some tc.name) (some trdb.1)
                      (content_after_tool tc.name trdb.1 fr.content), [(tc.name, args)])
          else
            (finish cfg orc.asstWriteOk now session_id p.1 p.2 (some tc.name) none am.content, [])
  ⟨core.1.1, core.1.2.1, core.1.2.2, messages1, core.2⟩

/-! ### Helper lemmas -/

theorem pyLastN_of_le (n : Nat) (l : List α) (h : l.length ≤ n) : pyLastN n l = l := by
  simp [pyLastN, Nat.sub_eq_zero_of_le h]

theorem length_pyLastN (n : Nat) (l : List α) :
    (pyLastN n l).length = min n l.length := by
  simp [pyLastN]
  omega

theorem truncate50_eq_pyLastN (l : List Msg) : truncate50 l = pyLastN 50 l := by
  unfold truncate50
  by_cases h : l.length > 50
  · simp [h]
  · simp [h, pyLastN_of_le 50 l (by omega)]

theorem pyLastN_append_pyLastN (n : Nat) (xs ys : List α) :
    pyLastN n (pyLastN n xs ++ ys) = pyLastN n (xs ++ ys) := by
  unfold pyLastN
  rw [List.drop_append_eq_append_drop, List.drop_append_eq_append_drop, List.drop_drop]
  have h1 : xs.length - n + ((xs.drop (xs.length - n) ++ ys).length - n)
      = (xs ++ ys).length - n := by
    simp [List.length_append, List.length_drop]
    omega
  have h2 : (xs.drop (xs.length - n) ++ ys).length - n - (xs.drop (xs.length - n)).length
      = (xs ++ ys).length - n - xs.length := by
    simp [List.length_append, List.length_drop]
    omega
  rw [h1, h2]

theorem getLast?_pyLastN_concat (n : Nat) (l : List α) (m : α) :
    (pyLastN (n + 1) (l ++ [m])).getLast? = some m := by
  unfold pyLastN
  rw [List.drop_append_eq_append_drop]
  have h : (l ++ [m]).length - (n + 1) - l.length = 0 := by
    simp only [List.length_append, List.length_singleton]
    omega
  rw [h]
  exact List.getLast?_concat _

theorem cachedOf_add_message (cfg : Config) (st : CMState) (db : DB) (w : Bool)
    (now : Nat) (sid role content : String) :
    cachedOf (add_message cfg st db w now sid role content).1 sid
      = truncate50 (cachedOf st sid ++ [⟨role, content⟩]) := by
  simp [add_message, cachedOf]

theorem getLast?_truncate50_concat (l : List Msg) (m : Msg) :
    (truncate50 (l ++ [m])).getLast? = some m := by
  rw [truncate50_eq_pyLastN]
  exact getLast?_pyLastN_concat 49 l m

/-- After `get_context`, the value it returned is exactly what the cache
holds for that session (a hit returns the cache; a load caches what it
returns; a failed or skipped load returns `[]` and leaves the key absent,
which `cachedOf` also reads as `[]`). -/
theorem cachedOf_get_context (cfg : Config) (st : CMState) (db : DB)
    (readOk : Bool) (sid : String) :
    cachedOf (get_context cfg st db readOk sid).2 sid
      = (get_context cfg st db readOk sid).1 := by
  unfold get_context
  match h : st.sessions sid with
  | some msgs => simp [cachedOf, h]
  | none =>
      by_cases hc : cfg.supabaseConfigured
      · by_cases hr : readOk
        · simp [cachedOf, h, hc, hr]
        · simp [cachedOf, h, hc, hr]
      · simp [cachedOf, h, hc]

/-! ### Concrete fixtures shared by witnesses and counterexamples -/

def stEmpty : CMState := ⟨fun _ => none⟩

def dbEmpty : DB := ⟨[], []⟩

/-- Serper key absent, Supabase absent. -/
def cfgNoSerper : Config := ⟨some "or-key", "mistralai/mixtral-8x7b-instruct", false, none, none⟩

/-- Serper key present, Supabase absent. -/
def cfgSerper : Config := ⟨some "or-key", "mistralai/mixtral-8x7b-instruct", false, none, some "serper-key"⟩

/-- A first model response that requests `web_search` for "rust". -/
def llmWebSearchRust : Except String LLMOut :=
  .ok ⟨"", [⟨"call_1", "web_search", [("query", "rust")]⟩]⟩

/-- Oracles for a turn whose tool HTTP call would raise `str(e) = m`, and
whose second model call returns empty text. -/
def orcToolFail (m : String) : Oracles :=
  ⟨llmWebSearchRust, .ok ⟨"", []⟩, .exc m, true, true, true, true, ""⟩

/-! ## C1 — adapter failure shapes and the dispatch loop's handling -/

/-- C1 (counterexample): the claim says every failure mode returns an object
of the shape `{success: false, error: <string>}`.  The missing-API-key path
of `web_search` (line 126) returns `{"error": ...}` with NO `success` key at
all, so the claimed shape is not produced there. -/
theorem C1_missing_key_shape_counterexample :
    web_search none (HttpOutcome.exc "connection reset") "rust"
        = [("error", JVal.str "Serper API key not configured")]
    ∧ oGet (web_search none (HttpOutcome.exc "connection reset") "rust") "success" = none :=
  ⟨rfl, rfl⟩

/-- C1 (amended): the adapters are total (never raise), but the failure
modes do not all collapse to `{success:false, error}`:
* a missing API key / unconfigured database yields `{error: <string>}` with
  no `success` key;
* an exception raised during the call (network error, timeout, unparseable
  body) yields `{success: false, error: str(e)}`;
* a non-2xx HTTP response whose body parses as JSON is NOT a failure mode:
  the status code is ignored and the adapter reports `success: true` (with
  empty results when the error body lacks the expected list key);
* in the first two cases the `success` field is absent or `false`, and the
  dispatch loop then returns HTTP 200 with the user-facing sentence
  "I encountered an error: ..." rather than a 500. -/
theorem C1_adapter_error_shapes :
    (∀ http q, web_search none http q
        = [("error", JVal.str "Serper API key not configured")])
    ∧ (∀ http q c, news_search none http q c
        = [("error", JVal.str "GNews API key not configured")])
    ∧ (∀ http q, image_search none http q
        = [("error", JVal.str "Serper API key not configured")])
    ∧ (∀ http q, youtube_search none http q
        = [("error", JVal.str "Serper API key not configured")])
    ∧ (∀ db ok m now sid mt ct, save_memory false db ok m now sid mt ct
        = ([("error", JVal.str "Database not configured")], db))
    ∧ (∀ db ok m sid mt, recall_memory false db ok m sid mt
        = [("error", JVal.str "Database not configured")])
    ∧ (∀ k m q, web_search (some k) (.exc m) q
        = [("success", JVal.bool false), ("error", JVal.str m)])
    ∧ (∀ k m q c, news_search (some k) (.exc m) q c
        = [("success", JVal.bool false), ("error", JVal.str m)])
    ∧ (∀ k m q, image_search (some k) (.exc m) q
        = [("success", JVal.bool false), ("error", JVal.str m)])
    ∧ (∀ k m q, youtube_search (some k) (.exc m) q
        = [("success", JVal.bool false), ("error", JVal.str m)])
    ∧ (∀ m u, fetch_webpage (.exc m) u
        = [("success", JVal.bool false), ("error", JVal.str m)])
    ∧ (∀ db m now sid mt ct, save_memory true db false m now sid mt ct
        = ([("success", JVal.bool false), ("error", JVal.str m)], db))
    ∧ (∀ db m sid mt, recall_memory true db false m sid mt
        = [("success", JVal.bool false), ("error", JVal.str m)])
    ∧ (∀ k status txt bt q, web_search (some k) (.resp status [("message", JVal.str txt)] bt) q
        = [("success", JVal.bool true), ("query", JVal.str q),
           ("results", JVal.list []), ("total", JVal.nat 0)])
    ∧ (∀ k status txt bt q c, news_search (some k) (.resp status [("message", JVal.str txt)] bt) q c
        = [("success", JVal.bool true), ("query", JVal.str q),
           ("articles", JVal.list []), ("total", JVal.nat 0)])
    ∧ (∀ k status txt bt q, image_search (some k) (.resp status [("message", JVal.str txt)] bt) q
        = [("success", JVal.bool true), ("query", JVal.str q),
           ("images", JVal.list []), ("total", JVal.nat 0)])
    ∧ (∀ k status txt bt q, youtube_search (some k) (.resp status [("message", JVal.str txt)] bt) q
        = [("success", JVal.bool true), ("query", JVal.str q),
           ("videos", JVal.list []), ("total", JVal.nat 0)])
    ∧ (∀ status b t u, oGet (fetch_webpage (.resp status b t) u) "success"
        = some (JVal.bool true))
    ∧ (chat_message cfgNoSerper (orcToolFail "ignored") 0 "fresh" stEmpty dbEmpty
          ⟨"hi", some "s1"⟩).result
        = .ok ⟨"I encountered an error: Serper API key not configured", "s1",
               some "web_search", some [("error", JVal.str "Serper API key not configured")]⟩
    ∧ (chat_message cfgSerper (orcToolFail "Connection timeout") 0 "fresh" stEmpty dbEmpty
          ⟨"hi", some "s1"⟩).result
        = .ok ⟨"I encountered an error: Connection timeout", "s1",
               some "web_search",
               some [("success", JVal.bool false), ("error", JVal.str "Connection timeout")]⟩ :=
  ⟨fun _ _ => rfl, fun _ _ _ => rfl, fun _ _ => rfl, fun _ _ => rfl,
   fun _ _ _ _ _ _ _ => rfl, fun _ _ _ _ _ => rfl,
   fun _ _ _ => rfl, fun _ _ _ _ => rfl, fun _ _ _ => rfl, fun _ _ _ => rfl,
   fun _ _ => rfl, fun _ _ _ _ _ _ => rfl, fun _ _ _ _ => rfl,
   fun _ _ _ _ _ => rfl, fun _ _ _ _ _ _ => rfl, fun _ _ _ _ _ => rfl,
   fun _ _ _ _ _ => rfl, fun _ _ _ _ => rfl, rfl, rfl⟩

/-! ## C4 — scripted web_search turn -/

/-- The scripted Serper body with exactly two organic results. -/
def bodyRustVsGo : Obj :=
  [("organic", JVal.list [
    JVal.obj [("title", JVal.str "Rust overview"),
              ("snippet", JVal.str "Rust is a systems language"),
              ("link", JVal.str "https://a.example")],
    JVal.obj [("title", JVal.str "Go overview"),
              ("snippet", JVal.str "Go is a simple language"),
              ("link", JVal.str "https://b.example")]])]

/-- First model response: a `web_search` tool call for "rust vs go";
second model response: empty text, which triggers the fallback formatter. -/
def orcRustVsGo : Oracles :=
  ⟨.ok ⟨"", [⟨"call_1", "web_search", [("query", "rust vs go")]⟩]⟩,
   .ok ⟨"", []⟩, .resp 200 bodyRustVsGo "", true, true, true, true, ""⟩

/-- The structured result `web_search` builds from that body. -/
def trRustVsGo : Obj :=
  [("success", JVal.bool true), ("query", JVal.str "rust vs go"),
   ("results", JVal.list [
      JVal.obj [("title", JVal.str "Rust overview"),
                ("snippet", JVal.str "Rust is a systems language"),
                ("link", JVal.str "https://a.example")],
      JVal.obj [("title", JVal.str "Go overview"),
                ("snippet", JVal.str "Go is a simple language"),
                ("link", JVal.str "https://b.example")]]),
   ("total", JVal.nat 2)]

/-- The reply the fallback formatter produces (after the final
`.strip()` removed the trailing blank line). -/
def replyRustVsGo : String :=
  "Here's what I found:\n\n• Rust overview\n  Rust is a systems language\n\n• Go overview\n  Go is a simple language"

/-- C4: with a scripted first model response requesting `web_search` for
"rust vs go", a scripted adapter result of exactly 2 results, and an empty
second model response (which triggers the fallback path), the endpoint
returns 200 whose text contains both result titles, and `tool_used` is
`"web_search"`. -/
theorem C4_scripted_web_search_turn :
    (chat_message cfgSerper orcRustVsGo 0 "fresh" stEmpty dbEmpty
        ⟨"compare rust and go", some "s4"⟩).result
      = .ok ⟨replyRustVsGo, "s4", some "web_search", some trRustVsGo⟩
    ∧ containsSub replyRustVsGo "Rust overview" = true
    ∧ containsSub replyRustVsGo "Go overview" = true
    ∧ (chat_message cfgSerper orcRustVsGo 0 "fresh" stEmpty dbEmpty
        ⟨"compare rust and go", some "s4"⟩).executed
      = [("web_search", [("query", "rust vs go")])] :=
  ⟨rfl, rfl, rfl, rfl⟩

/-! ## C9 — reasoning-trace delimiter stripping -/

/-- A first model response whose text is the splice counterexample, with no
tool calls. -/
def orcThinkSplice : Oracles :=
  ⟨.ok ⟨"<thi<think>x</think>nk>y</think>", []⟩, .ok ⟨"", []⟩, .exc "unused",
   true, true, true, true, ""⟩

/-- C9 (counterexample): the single non-iterated `re.sub` pass can splice
the text surrounding a removed span into a NEW literal
`<think>...</think>` span, which survives into the persisted and returned
reply — so not all such spans are removed from the final reply text. -/
theorem C9_splice_counterexample :
    stripThink "<thi<think>x</think>nk>y</think>" = "<think>" ++ "y" ++ "</think>"
    ∧ (chat_message cfgNoSerper orcThinkSplice 0 "fresh" stEmpty dbEmpty
          ⟨"hi", some "s9"⟩).result
        = .ok ⟨"<think>y</think>", "s9", none, none⟩
    ∧ containsSub "<think>y</think>" "<think>" = true
    ∧ containsSub "<think>y</think>" "</think>" = true :=
  ⟨rfl, rfl, rfl, rfl⟩

/-- C9 (amended): the final text goes through ONE left-to-right pass that
deletes each leftmost non-overlapping shortest `<think>...</think>` match
(`stripThink`), then is whitespace-stripped, and exactly that processed text
is returned and persisted as the assistant message (whenever the post-strip
leak heuristic of line 641 does not fire).  Because the pass is not
iterated, a span spliced together by a deletion itself can survive (see the
counterexample); on inputs whose delimiter spans are disjoint from the
surrounding text the pass removes them all, as the closed instance shows. -/
theorem C9_strip_and_persist :
    (∀ cfg l2 http cR uW aW mOk mM now fid st db msg sid c,
      cond641 (pyStrip (stripThink c)) = false →
      (let o := chat_message cfg ⟨.ok ⟨c, []⟩, l2, http, cR, uW, aW, mOk, mM⟩
                  now fid st db ⟨msg, sid⟩
       o.result = .ok ⟨pyStrip (stripThink c), sessionIdOf ⟨msg, sid⟩ fid, none, none⟩
       ∧ (cachedOf o.st (sessionIdOf ⟨msg, sid⟩ fid)).getLast?
           = some ⟨"assistant", pyStrip (stripThink c)⟩))
    ∧ stripThink "a<think>b</think>c<think>d</think>e" = "ace"
    ∧ pyStrip "\n  reply text \t" = "reply text" := by
  refine ⟨?_, rfl, rfl⟩
  intro cfg l2 http cR uW aW mOk mM now fid st db msg sid c h
  simp only [chat_message, finish, h, if_false, Bool.false_eq_true]
  refine ⟨?_, ?_⟩
  · trivial
  · rw [cachedOf_add_message, getLast?_truncate50_concat]

/-- C9 witness: the general part applied to a concrete reply containing one
well-separated `<think>` span. -/
theorem C9_strip_and_persist_witness :
    cond641 (pyStrip (stripThink " hello <think>secret plan</think> world ")) = false
    ∧ (let o := chat_message cfgNoSerper
                  ⟨.ok ⟨" hello <think>secret plan</think> world ", []⟩, .ok ⟨"", []⟩,
                   .exc "unused", true, true, true, true, ""⟩ 0 "fresh" stEmpty dbEmpty
                  ⟨"hi", some "s9w"⟩
       o.result = .ok ⟨pyStrip (stripThink " hello <think>secret plan</think> world "),
                       sessionIdOf ⟨"hi", some "s9w"⟩ "fresh", none, none⟩
       ∧ (cachedOf o.st (sessionIdOf ⟨"hi", some "s9w"⟩ "fresh")).getLast?
           = some ⟨"assistant", pyStrip (stripThink " hello <think>secret plan</think> world ")⟩) :=
  ⟨rfl, C9_strip_and_persist.1 cfgNoSerper (.ok ⟨"", []⟩) (.exc "unused") true true true
    true "" 0 "fresh" stEmpty dbEmpty "hi" (some "s9w")
    " hello <think>secret plan</think> world " rfl⟩

/-! ## C10 — the line-598 leak heuristic -/

/-- C10: after a successful tool execution, the text of the second model
call is discarded in favour of the canned per-tool summary exactly when
`cond598` fires, whose substring checks combine (by Python precedence) as
`(not text) or ('[' in text and 'TOOL:' in text) or ('_search' in text)`:
any text containing `'_search'` is discarded regardless of `'['`/`'TOOL:'`,
while text containing `'['` but neither `'TOOL:'` nor `'_search'` is kept
unchanged. -/
theorem C10_leak_heuristic :
    (∀ fc, cond598 fc
        = ((fc == "") || (containsSub fc "[" && containsSub fc "TOOL:")
            || containsSub fc "_search"))
    ∧ (∀ name tr fc, containsSub fc "_search" = true →
        content_after_tool name tr fc = fallback598 name tr)
    ∧ (∀ name tr fc, fc ≠ "" → containsSub fc "[" = true →
        containsSub fc "TOOL:" = false → containsSub fc "_search" = false →
        content_after_tool name tr fc = fc) := by
  refine ⟨fun _ => rfl, ?_, ?_⟩
  · intro name tr fc h
    simp [content_after_tool, cond598, h]
  · intro name tr fc h1 h2 h3 h4
    have h0 : (fc == "") = false := beq_eq_false_iff_ne.mpr h1
    simp [content_after_tool, cond598, h0, h3, h4]

/-- C10 witness: a text containing `_search` is replaced even without `[`
or `TOOL:`; a text with `[` but neither other marker is kept. -/
theorem C10_leak_heuristic_witness :
    content_after_tool "web_search" [("success", JVal.bool true)]
        "The web_search tool returned good hits"
      = fallback598 "web_search" [("success", JVal.bool true)]
    ∧ content_after_tool "web_search" [("success", JVal.bool true)]
        "deep [analysis] of both languages"
      = "deep [analysis] of both languages" :=
  ⟨C10_leak_heuristic.2.1 "web_search" [("success", JVal.bool true)]
      "The web_search tool returned good hits" rfl,
   C10_leak_heuristic.2.2 "web_search" [("success", JVal.bool true)]
      "deep [analysis] of both languages" (by decide) rfl rfl rfl⟩

/-! ## C6 — memory recall -/

/-- Two memories of one session with distinct, non-empty type tags. -/
def dbMem : DB := ⟨[], [⟨"s6", "pref", "likes rust", 1⟩, ⟨"s6", "fact", "uses linux", 2⟩]⟩

/-- C6 (counterexample): the claim says that whenever a type tag is
supplied, every returned record has that tag.  Supplying the empty-string
tag is falsy in Python (`if memory_type:`), so the filter is skipped and
records of other types are returned. -/
theorem C6_empty_tag_counterexample :
    recallRows dbMem "s6" (some "")
      = [⟨"s6", "fact", "uses linux", 2⟩, ⟨"s6", "pref", "likes rust", 1⟩]
    ∧ (⟨"s6", "pref", "likes rust", 1⟩ : MemRow).memory_type ≠ "" := by
  exact ⟨by decide, by decide⟩

/-- C6 (amended): on a successful recall, at most 10 records are returned,
ordered most-recent-first by creation time, all belonging to the session;
a supplied NON-EMPTY type tag filters the records to that tag, while a
supplied empty-string tag is falsy and is treated as no tag at all; the
result object carries `success: true`, the records, and their count. -/
theorem C6_recall_memory :
    ∀ (db : DB) (sid : String) (mt : Option String) (excM : String),
      (recallRows db sid mt).length ≤ 10
      ∧ List.Sorted memRecent (recallRows db sid mt)
      ∧ (∀ r ∈ recallRows db sid mt, r.session_id = sid)
      ∧ (∀ t, mt = some t → t ≠ "" → ∀ r ∈ recallRows db sid mt, r.memory_type = t)
      ∧ (mt = some "" → recallRows db sid mt = recallRows db sid none)
      ∧ recall_memory true db true excM sid mt
          = [("success", JVal.bool true),
             ("memories", JVal.list ((recallRows db sid mt).map memRowJ)),
             ("total", JVal.nat (recallRows db sid mt).length)] := by
  intro db sid mt excM
  refine ⟨List.length_take_le _ _, ?_, ?_, ?_, ?_, rfl⟩
  · exact List.Pairwise.sublist (List.take_sublist _ _)
      (List.sorted_insertionSort memRecent _)
  · intro r hr
    have hmem : r ∈ db.memories.filter
        (fun r => r.session_id == sid && memFilter mt r) :=
      ((List.perm_insertionSort memRecent _).mem_iff).mp
        ((List.take_sublist _ _).subset hr)
    have hp := (List.mem_filter.mp hmem).2
    have hand := (Bool.and_eq_true _ _).mp hp
    exact beq_iff_eq.mp hand.1
  · intro t hmt ht r hr
    subst hmt
    have hmem : r ∈ db.memories.filter
        (fun r => r.session_id == sid && memFilter (some t) r) :=
      ((List.perm_insertionSort memRecent _).mem_iff).mp
        ((List.take_sublist _ _).subset hr)
    have hp := (List.mem_filter.mp hmem).2
    have hf := ((Bool.and_eq_true _ _).mp hp).2
    have ht' : (t == "") = false := beq_eq_false_iff_ne.mpr ht
    simp only [memFilter, ht', if_false, Bool.false_eq_true] at hf
    exact beq_iff_eq.mp hf
  · intro hmt
    subst hmt
    have hfe : memFilter (some "") = memFilter none := by
      funext r
      simp [memFilter]
    simp only [recallRows, hfe]

/-- C6 witness: the amended theorem at a concrete database and the concrete
non-empty tag "pref". -/
theorem C6_recall_memory_witness :
    (recallRows dbMem "s6" (some "pref")).length ≤ 10
    ∧ (∀ r ∈ recallRows dbMem "s6" (some "pref"), r.memory_type = "pref")
    ∧ recall_memory true dbMem true "exc" "s6" (some "pref")
        = [("success", JVal.bool true),
           ("memories", JVal.list ((recallRows dbMem "s6" (some "pref")).map memRowJ)),
           ("total", JVal.nat (recallRows dbMem "s6" (some "pref")).length)] :=
  ⟨(C6_recall_memory dbMem "s6" (some "pref") "exc").1,
   fun r hr => (C6_recall_memory dbMem "s6" (some "pref") "exc").2.2.2.1 "pref" rfl
     (by decide) r hr,
   (C6_recall_memory dbMem "s6" (some "pref") "exc").2.2.2.2.2⟩

/-! ## C2 — context-manager bounds and order -/

/-- One `add_message` call of a sequence: its role, content, write outcome
and timestamp. -/
structure AddOp where
  role : String
  content : String
  writeOk : Bool
  now : Nat

def AddOp.msg (op : AddOp) : Msg := ⟨op.role, op.content⟩

/-- A sequence of `add_message` calls for one session. -/
def addAll (cfg : Config) (sid : String) : CMState × DB → List AddOp → CMState × DB
  | p, [] => p
  | p, op :: rest =>
      addAll cfg sid (add_message cfg p.1 p.2 op.writeOk op.now sid op.role op.content) rest

theorem addAll_cached (cfg : Config) (sid : String) :
    ∀ (ops : List AddOp) (st : CMState) (db : DB),
      (cachedOf st sid).length ≤ 50 →
      cachedOf (addAll cfg sid (st, db) ops).1 sid
        = pyLastN 50 (cachedOf st sid ++ ops.map AddOp.msg) := by
  intro ops
  induction ops with
  | nil =>
      intro st db h
      simp [addAll, pyLastN_of_le 50 _ (by simpa using h)]
  | cons op rest ih =>
      intro st db h
      have hstep : cachedOf (add_message cfg st db op.writeOk op.now sid op.role op.content).1 sid
          = pyLastN 50 (cachedOf st sid ++ [op.msg]) := by
        rw [cachedOf_add_message, truncate50_eq_pyLastN]
        rfl
      have hlen : (cachedOf (add_message cfg st db op.writeOk op.now sid op.role op.content).1 sid).length ≤ 50 := by
        rw [hstep, length_pyLastN]
        omega
      calc cachedOf (addAll cfg sid (st, db) (op :: rest)).1 sid
      _ = pyLastN 50 (cachedOf (add_message cfg st db op.writeOk op.now sid op.role op.content).1 sid
            ++ rest.map AddOp.msg) := by
            simpa [addAll] using
              ih (add_message cfg st db op.writeOk op.now sid op.role op.content).1
                 (add_message cfg st db op.writeOk op.now sid op.role op.content).2 hlen
      _ = pyLastN 50 ((cachedOf st sid ++ [op.msg]) ++ rest.map AddOp.msg) := by
            rw [hstep, pyLastN_append_pyLastN]
      _ = pyLastN 50 (cachedOf st sid ++ (op :: rest).map AddOp.msg) := by
            simp

/-- C2: (1) after any sequence of appends through the Context Manager, the
cached message list for the session is exactly the last 50 of the previous
cache followed by the appended messages in order — in particular at most 50
entries and a suffix of the full insertion sequence; (2) the initial load
from storage reads at most 50 rows of the session ordered by creation time
ascending, and a cache miss returns exactly those rows' role/content. -/
theorem C2_context_manager :
    (∀ cfg sid ops st db, (cachedOf st sid).length ≤ 50 →
      (cachedOf (addAll cfg sid (st, db) ops).1 sid
          = pyLastN 50 (cachedOf st sid ++ ops.map AddOp.msg)
       ∧ (cachedOf (addAll cfg sid (st, db) ops).1 sid).length ≤ 50
       ∧ cachedOf (addAll cfg sid (st, db) ops).1 sid
           <:+ (cachedOf st sid ++ ops.map AddOp.msg)))
    ∧ (∀ db sid,
        (selectChat db sid).length ≤ 50
        ∧ List.Sorted chatOlder (selectChat db sid)
        ∧ ∀ r ∈ selectChat db sid, r.session_id = sid)
    ∧ (∀ cfg st db sid, st.sessions sid = none → cfg.supabaseConfigured = true →
        (get_context cfg st db true sid).1
          = (selectChat db sid).map (fun r => ⟨r.role, r.content⟩)) := by
  refine ⟨?_, ?_, ?_⟩
  · intro cfg sid ops st db h
    refine ⟨addAll_cached cfg sid ops st db h, ?_, ?_⟩
    · rw [addAll_cached cfg sid ops st db h, length_pyLastN]
      omega
    · rw [addAll_cached cfg sid ops st db h]
      exact List.drop_suffix _ _
  · intro db sid
    refine ⟨List.length_take_le _ _, ?_, ?_⟩
    · exact List.Pairwise.sublist (List.take_sublist _ _)
        (List.sorted_insertionSort chatOlder _)
    · intro r hr
      have hmem : r ∈ db.chat_history.filter (fun r => r.session_id == sid) :=
        ((List.perm_insertionSort chatOlder _).mem_iff).mp
          ((List.take_sublist _ _).subset hr)
      exact beq_iff_eq.mp (List.mem_filter.mp hmem).2
  · intro cfg st db sid hmiss hconf
    simp [get_context, hmiss, hconf]

/-- C2 witness: three appends into an empty cache, and a cache-miss load
from a one-row store. -/
theorem C2_context_manager_witness :
    (cachedOf (addAll cfgSerper "s2"
        (stEmpty, dbEmpty)
        [⟨"user", "a", true, 0⟩, ⟨"assistant", "b", true, 1⟩, ⟨"user", "c", true, 2⟩]).1 "s2"
      = pyLastN 50 (cachedOf stEmpty "s2"
          ++ ([⟨"user", "a", true, 0⟩, ⟨"assistant", "b", true, 1⟩,
               ⟨"user", "c", true, 2⟩] : List AddOp).map AddOp.msg))
    ∧ (get_context ⟨some "k", "m", true, none, none⟩ stEmpty
          ⟨[⟨"s2", "user", "hello", 3⟩], []⟩ true "s2").1
      = (selectChat ⟨[⟨"s2", "user", "hello", 3⟩], []⟩ "s2").map
          (fun r => ⟨r.role, r.content⟩) :=
  ⟨(C2_context_manager.1 cfgSerper "s2"
      [⟨"user", "a", true, 0⟩, ⟨"assistant", "b", true, 1⟩, ⟨"user", "c", true, 2⟩]
      stEmpty dbEmpty (by decide)).1,
   C2_context_manager.2.2 ⟨some "k", "m", true, none, none⟩ stEmpty
      ⟨[⟨"s2", "user", "hello", 3⟩], []⟩ "s2" rfl rfl⟩

/-! ## C3 — only the first tool call is honored -/

/-- C3: the dispatch loop reads only `tool_calls[0]`: the entire outcome of
the request (response, state, storage, executed tools) is unchanged under
any replacement of the remaining tool calls, and the executed list is
either empty (unknown tool, or argument binding raised) or exactly the
first call with its bound arguments. -/
theorem C3_first_tool_call_only :
    ∀ cfg l2 http cR uW aW mOk mM now fid st db req c (tc : ToolCall) rest rest',
      chat_message cfg ⟨.ok ⟨c, tc :: rest⟩, l2, http, cR, uW, aW, mOk, mM⟩
          now fid st db req
        = chat_message cfg ⟨.ok ⟨c, tc :: rest'⟩, l2, http, cR, uW, aW, mOk, mM⟩
            now fid st db req
      ∧ ((chat_message cfg ⟨.ok ⟨c, tc :: rest⟩, l2, http, cR, uW, aW, mOk, mM⟩
            now fid st db req).executed = []
         ∨ (chat_message cfg ⟨.ok ⟨c, tc :: rest⟩, l2, http, cR, uW, aW, mOk, mM⟩
              now fid st db req).executed
            = [(tc.name, injectSession tc.name tc.args (sessionIdOf req fid))]) := by
  intro cfg l2 http cR uW aW mOk mM now fid st db req c tc rest rest'
  constructor
  · rfl
  · simp only [chat_message]
    by_cases hmem : tc.name ∈ TOOL_IMPL_NAMES
    · simp only [hmem, if_true]
      cases hrt : runTool cfg http mOk mM
          (add_message cfg (get_context cfg st db cR (sessionIdOf req fid)).2 db uW now
            (sessionIdOf req fid) "user" req.message).2 now tc.name
          (injectSession tc.name tc.args (sessionIdOf req fid)) with
      | error e => exact Or.inl (by trivial)
      | ok trdb =>
          cases l2 with
          | error e => exact Or.inr (by trivial)
          | ok fr => exact Or.inr (by trivial)
    · simp only [hmem, if_false]
      exact Or.inl (by trivial)

/-! ## C5 — unknown tool name -/

/-- C5: when the first model response requests a tool whose name is not a
key of `TOOL_IMPLEMENTATIONS`, no tool implementation runs, the returned
`tool_result` is absent, the endpoint still answers 200 with a non-empty
reply, and when the first response carried no text the reply is the canned
sentence. -/
theorem C5_unknown_tool :
    ∀ cfg l2 http cR uW aW mOk mM now fid st db req c (tc : ToolCall) rest,
      tc.name ∉ TOOL_IMPL_NAMES →
      (let o := chat_message cfg ⟨.ok ⟨c, tc :: rest⟩, l2, http, cR, uW, aW, mOk, mM⟩
                  now fid st db req
       o.executed = []
       ∧ ∃ r, o.result = .ok r
           ∧ r.tool_result = none
           ∧ r.tool_used = some tc.name
           ∧ r.response ≠ ""
           ∧ (c = "" → r.response = "I encountered an issue processing your request.")) := by
  intro cfg l2 http cR uW aW mOk mM now fid st db req c tc rest hmem
  simp only [chat_message, hmem, if_false, finish]
  refine ⟨by trivial, ?_⟩
  refine ⟨_, rfl, rfl, rfl, ?_, ?_⟩
  · by_cases hc : cond641 (pyStrip (stripThink c)) = true
    · simp only [hc, if_true, fallback641]
      intro hfalse
      exact absurd hfalse (by decide)
    · have hc' : cond641 (pyStrip (stripThink c)) = false := by
        cases h : cond641 (pyStrip (stripThink c))
        · rfl
        · exact absurd h hc
      simp only [hc', if_false, Bool.false_eq_true]
      intro heq
      rw [heq] at hc'
      simp [cond641] at hc'
  · intro hc0
    subst hc0
    rfl

/-- C5 witness: a concrete turn requesting the unregistered tool
"quantum_summarize" with empty first-response text. -/
theorem C5_unknown_tool_witness :
    (⟨"c1", "quantum_summarize", [("query", "x")]⟩ : ToolCall).name ∉ TOOL_IMPL_NAMES
    ∧ (let o := chat_message cfgSerper
          ⟨.ok ⟨"", [⟨"c1", "quantum_summarize", [("query", "x")]⟩]⟩, .ok ⟨"", []⟩,
           .exc "unused", true, true, true, true, ""⟩ 0 "fresh" stEmpty dbEmpty
          ⟨"hi", some "s5"⟩
       o.executed = []
       ∧ ∃ r, o.result = .ok r
           ∧ r.tool_result = none
           ∧ r.tool_used = some "quantum_summarize"
           ∧ r.response ≠ ""
           ∧ ("" = "" → r.response = "I encountered an issue processing your request.")) :=
  ⟨by decide,
   C5_unknown_tool cfgSerper (.ok ⟨"", []⟩) (.exc "unused") true true true true "" 0
     "fresh" stEmpty dbEmpty ⟨"hi", some "s5"⟩ ""
     ⟨"c1", "quantum_summarize", [("query", "x")]⟩ [] (by decide)⟩

/-! ## C7 — DELETE then POST sees an empty history -/

theorem selectChat_after_clear (cfg : Config) (st : CMState) (db : DB) (sid : String)
    (hc : cfg.supabaseConfigured = true) :
    selectChat (clear_history cfg st db sid).2 sid = [] := by
  unfold clear_history selectChat
  simp only [hc, if_true]
  have hfil : (db.chat_history.filter (fun r => !(r.session_id == sid))).filter
      (fun r => r.session_id == sid) = [] := by
    rw [List.filter_filter]
    apply List.filter_eq_nil_iff.mpr
    intro a _
    cases h : a.session_id == sid <;> simp [h]
  simp [hfil]

/-- C7: after `DELETE /chat/history/{sid}` (cache entry dropped, session
rows deleted from storage), the next `POST /chat/message` for the same
session id loads an empty context, so the messages handed to the model are
just the system prompt and the new user message — no residual turns. -/
theorem C7_clear_then_post :
    ∀ cfg orc now fid st db sid msg,
      sid ≠ "" →
      ((get_context cfg (clear_history cfg st db sid).1 (clear_history cfg st db sid).2
          orc.ctxReadOk sid).1 = []
       ∧ (chat_message cfg orc now fid (clear_history cfg st db sid).1
            (clear_history cfg st db sid).2 ⟨msg, some sid⟩).messages1
          = [systemMsg, ⟨"user", msg⟩]) := by
  intro cfg orc now fid st db sid msg hsid
  have hmiss : (clear_history cfg st db sid).1.sessions sid = none := by
    simp [clear_history]
  have hctx : (get_context cfg (clear_history cfg st db sid).1
      (clear_history cfg st db sid).2 orc.ctxReadOk sid).1 = [] := by
    unfold get_context
    rw [hmiss]
    by_cases hc : cfg.supabaseConfigured
    · by_cases hr : orc.ctxReadOk
      · simp [hc, hr, selectChat_after_clear cfg st db sid hc]
      · simp [hc, hr]
    · simp [hc]
  refine ⟨hctx, ?_⟩
  have hname : sessionIdOf ⟨msg, some sid⟩ fid = sid := by
    simp [sessionIdOf, hsid]
  show buildMessages1 (get_context cfg (clear_history cfg st db sid).1
      (clear_history cfg st db sid).2 orc.ctxReadOk
      (sessionIdOf ⟨msg, some sid⟩ fid)).1 msg = _
  rw [hname, hctx]
  rfl

/-- C7 witness: a concrete cache and store holding two prior turns for the
session, cleared and then asked again. -/
theorem C7_clear_then_post_witness :
    (get_context cfgSerper
        (clear_history cfgSerper
          ⟨fun s => if s = "s7" then some [⟨"user", "old"⟩, ⟨"assistant", "stale"⟩] else none⟩
          ⟨[⟨"s7", "user", "old", 0⟩, ⟨"s7", "assistant", "stale", 1⟩], []⟩ "s7").1
        (clear_history cfgSerper
          ⟨fun s => if s = "s7" then some [⟨"user", "old"⟩, ⟨"assistant", "stale"⟩] else none⟩
          ⟨[⟨"s7", "user", "old", 0⟩, ⟨"s7", "assistant", "stale", 1⟩], []⟩ "s7").2
        (orcToolFail "boom").ctxReadOk "s7").1 = []
    ∧ (chat_message cfgSerper (orcToolFail "boom") 5 "fresh"
        (clear_history cfgSerper
          ⟨fun s => if s = "s7" then some [⟨"user", "old"⟩, ⟨"assistant", "stale"⟩] else none⟩
          ⟨[⟨"s7", "user", "old", 0⟩, ⟨"s7", "assistant", "stale", 1⟩], []⟩ "s7").1
        (clear_history cfgSerper
          ⟨fun s => if s = "s7" then some [⟨"user", "old"⟩, ⟨"assistant", "stale"⟩] else none⟩
          ⟨[⟨"s7", "user", "old", 0⟩, ⟨"s7", "assistant", "stale", 1⟩], []⟩ "s7").2
        ⟨"what next?", some "s7"⟩).messages1
      = [systemMsg, ⟨"user", "what next?"⟩] :=
  C7_clear_then_post cfgSerper (orcToolFail "boom") 5 "fresh"
    ⟨fun s => if s = "s7" then some [⟨"user", "old"⟩, ⟨"assistant", "stale"⟩] else none⟩
    ⟨[⟨"s7", "user", "old", 0⟩, ⟨"s7", "assistant", "stale", 1⟩], []⟩ "s7" "what next?"
    (by decide)

/-! ## C8 — the turn is not atomic: the user message is persisted first -/

/-- C8: the user message is appended to the session history before the
first model call.  If the first model call raises, or (on the tool path)
the second model call raises, the request ends in the 500 path with the
state being exactly the post-user-append state: the user message is the
last cached message and no assistant message was added.  (Tool adapters
themselves never raise — see the C1 theorems — so the raising steps of a
turn are the two model calls and the argument binding of the tool call.) -/
theorem C8_user_message_persisted_on_failure :
    (∀ cfg e l2 http cR uW aW mOk mM now fid st db (req : ChatRequest),
      (chat_message cfg ⟨.error e, l2, http, cR, uW, aW, mOk, mM⟩ now fid st db req).result
          = .error e
      ∧ (chat_message cfg ⟨.error e, l2, http, cR, uW, aW, mOk, mM⟩ now fid st db req).st
          = (add_message cfg (get_context cfg st db cR (sessionIdOf req fid)).2 db uW now
              (sessionIdOf req fid) "user" req.message).1
      ∧ (chat_message cfg ⟨.error e, l2, http, cR, uW, aW, mOk, mM⟩ now fid st db req).db
          = (add_message cfg (get_context cfg st db cR (sessionIdOf req fid)).2 db uW now
              (sessionIdOf req fid) "user" req.message).2
      ∧ (cachedOf (chat_message cfg ⟨.error e, l2, http, cR, uW, aW, mOk, mM⟩
            now fid st db req).st (sessionIdOf req fid)).getLast?
          = some ⟨"user", req.message⟩)
    ∧ (∀ cfg e c (tc : ToolCall) rest http cR uW aW mOk mM now fid st db
          (req : ChatRequest) trdb,
        tc.name ∈ TOOL_IMPL_NAMES →
        runTool cfg http mOk mM
            (add_message cfg (get_context cfg st db cR (sessionIdOf req fid)).2 db uW now
              (sessionIdOf req fid) "user" req.message).2 now tc.name
            (injectSession tc.name tc.args (sessionIdOf req fid)) = .ok trdb →
        ((chat_message cfg ⟨.ok ⟨c, tc :: rest⟩, .error e, http, cR, uW, aW, mOk, mM⟩
              now fid st db req).result = .error e
         ∧ (chat_message cfg ⟨.ok ⟨c, tc :: rest⟩, .error e, http, cR, uW, aW, mOk, mM⟩
              now fid st db req).st
            = (add_message cfg (get_context cfg st db cR (sessionIdOf req fid)).2 db uW now
                (sessionIdOf req fid) "user" req.message).1
         ∧ (chat_message cfg ⟨.ok ⟨c, tc :: rest⟩, .error e, http, cR, uW, aW, mOk, mM⟩
              now fid st db req).db = trdb.2
         ∧ (cachedOf (chat_message cfg ⟨.ok ⟨c, tc :: rest⟩, .error e, http, cR, uW, aW, mOk, mM⟩
              now fid st db req).st (sessionIdOf req fid)).getLast?
            = some ⟨"user", req.message⟩)) := by
  constructor
  · intro cfg e l2 http cR uW aW mOk mM now fid st db req
    refine ⟨rfl, rfl, rfl, ?_⟩
    show (cachedOf (add_message cfg (get_context cfg st db cR (sessionIdOf req fid)).2 db uW
        now (sessionIdOf req fid) "user" req.message).1 (sessionIdOf req fid)).getLast? = _
    rw [cachedOf_add_message, getLast?_truncate50_concat]
  · intro cfg e c tc rest http cR uW aW mOk mM now fid st db req trdb hmem hrun
    simp only [chat_message, hmem, if_true, hrun]
    refine ⟨by trivial, by trivial, by trivial, ?_⟩
    rw [cachedOf_add_message, getLast?_truncate50_concat]

/-- C8 witness: a failing first model call, and a failing second model call
after a successful (error-shaped) web_search execution. -/
theorem C8_user_message_persisted_on_failure_witness :
    ((chat_message cfgSerper ⟨.error "LLM down", .ok ⟨"", []⟩, .exc "x", true, true, true,
          true, ""⟩ 0 "fresh" stEmpty dbEmpty ⟨"hello", some "s8"⟩).result
        = .error "LLM down"
     ∧ (cachedOf (chat_message cfgSerper ⟨.error "LLM down", .ok ⟨"", []⟩, .exc "x", true,
          true, true, true, ""⟩ 0 "fresh" stEmpty dbEmpty ⟨"hello", some "s8"⟩).st
          (sessionIdOf ⟨"hello", some "s8"⟩ "fresh")).getLast?
        = some ⟨"user", "hello"⟩)
    ∧ ((chat_message cfgSerper ⟨.ok ⟨"", [⟨"c1", "web_search", [("query", "rust")]⟩]⟩,
          .error "LLM down again", .exc "boom", true, true, true, true, ""⟩ 0 "fresh"
          stEmpty dbEmpty ⟨"hello", some "s8"⟩).result = .error "LLM down again"
     ∧ (cachedOf (chat_message cfgSerper ⟨.ok ⟨"", [⟨"c1", "web_search", [("query", "rust")]⟩]⟩,
          .error "LLM down again", .exc "boom", true, true, true, true, ""⟩ 0 "fresh"
          stEmpty dbEmpty ⟨"hello", some "s8"⟩).st
          (sessionIdOf ⟨"hello", some "s8"⟩ "fresh")).getLast?
        = some ⟨"user", "hello"⟩) :=
  ⟨⟨(C8_user_message_persisted_on_failure.1 cfgSerper "LLM down" (.ok ⟨"", []⟩) (.exc "x")
      true true true true "" 0 "fresh" stEmpty dbEmpty ⟨"hello", some "s8"⟩).1,
    (C8_user_message_persisted_on_failure.1 cfgSerper "LLM down" (.ok ⟨"", []⟩) (.exc "x")
      true true true true "" 0 "fresh" stEmpty dbEmpty ⟨"hello", some "s8"⟩).2.2.2⟩,
   ⟨(C8_user_message_persisted_on_failure.2 cfgSerper "LLM down again" ""
      ⟨"c1", "web_search", [("query", "rust")]⟩ [] (.exc "boom") true true true true "" 0
      "fresh" stEmpty dbEmpty ⟨"hello", some "s8"⟩
      ([("success", JVal.bool false), ("error", JVal.str "boom")], dbEmpty)
      (by decide) rfl).1,
    (C8_user_message_persisted_on_failure.2 cfgSerper "LLM down again" ""
      ⟨"c1", "web_search", [("query", "rust")]⟩ [] (.exc "boom") true true true true "" 0
      "fresh" stEmpty dbEmpty ⟨"hello", some "s8"⟩
      ([("success", JVal.bool false), ("error", JVal.str "boom")], dbEmpty)
      (by decide) rfl).2.2.2⟩⟩

end MCPGpt
